import Mathlib

/-!
Verification of the mcp-server-lnd channel-query pipeline.

The repository sources under verification:
- `src/config/index.ts` — the `Config` interface and `getConfig`
- `src/lnd/lnd-service-factory.ts` — `LndServiceFactory.createLndService`
- `src/lnd/mock-lnd-service.ts` — `MockLndService` with fixed sample data
- `src/lnd/lnd-service.interface.ts`, `src/lnd/client.ts`, `src/lnd/real-lnd-service.ts`
- `src/mcp/tools/channelQueryTool.ts` — the tool boundary
- `src/__tests__/mcp/handlers/channelQueryHandler.test.ts` — tests of the handler

The handler itself (`src/mcp/handlers/channelQueryHandler.ts`), the intent
parser (`src/mcp/nlp/intentParser.ts`) and the sanitize utility
(`src/utils/sanitize.ts`) are not present in the source tree; only their tests
and callers are.  Where a definition below embeds one of those missing pieces
it is modelled from the specification, and its doc comment says so.
-/

namespace LndMcp

/-- The diagnostic object attached to a channel when alias enrichment failed
for it.  Mirrors the shape checked by the tests:
`result[0]._error.type === 'alias_retrieval_failed'`. -/
structure ChanError where
  type : String
  message : String
deriving Repr, DecidableEq

/-- A payment channel.  Field names follow the `Channel` type used throughout
the repository (`capacity`, `local_balance`, `remote_balance`, `active`,
`remote_pubkey`, `remote_alias`, and the `_error` diagnostic, here called
`errorInfo` because Lean reserves leading underscores).  `remote_pubkey` may be
absent; `remote_alias` and `errorInfo` are absent until enrichment runs. -/
structure Channel where
  capacity : Int
  local_balance : Int
  remote_balance : Int
  active : Bool
  id : Option String := none
  channel_point : Option String := none
  remote_pubkey : Option String := none
  remote_alias : Option String := none
  errorInfo : Option ChanError := none
deriving Repr, DecidableEq

/-- Health criteria held by the handler: a band of acceptable local-balance
ratios, both bounds in `[0,1]`.  Mirrors `HealthCriteria` from
`src/types/channel.ts` as used by the tests
(`{minLocalRatio: 0.3, maxLocalRatio: 0.7}`). -/
structure HealthCriteria where
  minLocalRatio : ℚ
  maxLocalRatio : ℚ
deriving Repr, DecidableEq

/-- Modelled from the spec: the default balanced-liquidity band
(spec section 3: "Defaults to a balanced-liquidity band (e.g., 0.1-0.9) when
not supplied by the caller"). -/
def defaultCriteria : HealthCriteria := ⟨1/10, 9/10⟩

/-- The aggregate summary computed from a channel list.  Field names follow
the object the test's `getChannelData` mock returns: `totalCapacity`,
`totalLocalBalance`, `totalRemoteBalance`, `activeChannels`,
`inactiveChannels`, `averageCapacity`, `healthyChannels`,
`unhealthyChannels`. -/
structure ChannelSummary where
  totalCapacity : Int
  totalLocalBalance : Int
  totalRemoteBalance : Int
  activeChannels : Nat
  inactiveChannels : Nat
  averageCapacity : ℚ
  healthyChannels : Nat
  unhealthyChannels : Nat
deriving Repr, DecidableEq

/-- The local-balance ratio `local_balance / capacity` of a channel, the
"health ratio" of the spec's glossary.  Only meaningful when `capacity ≠ 0`;
the scorer guards that case separately. -/
def localRatio (c : Channel) : ℚ := (c.local_balance : ℚ) / (c.capacity : ℚ)

/-- Modelled from the spec (the handler `channelQueryHandler.ts` is not in the
source tree): health scoring, spec section 4.2b.  A channel is healthy iff it
is `active` and `local_balance / capacity` lies within
`[minLocalRatio, maxLocalRatio]` inclusive; a channel with `capacity = 0` is
degenerate and counted unhealthy without dividing. -/
def isHealthy (crit : HealthCriteria) (c : Channel) : Bool :=
  c.active && !(c.capacity == 0) &&
    decide (crit.minLocalRatio ≤ localRatio c) &&
    decide (localRatio c ≤ crit.maxLocalRatio)

/-- Modelled from the spec (the handler is not in the source tree): the pure
reduction producing the `ChannelSummary`, spec section 4.2 stage 3.  For an
empty list every field is zero and `averageCapacity` is defined as 0 rather
than performing a division. -/
def calculateChannelSummary (crit : HealthCriteria) (channels : List Channel) :
    ChannelSummary :=
  let totalCapacity := (channels.map (·.capacity)).sum
  { totalCapacity := totalCapacity
    totalLocalBalance := (channels.map (·.local_balance)).sum
    totalRemoteBalance := (channels.map (·.remote_balance)).sum
    activeChannels := channels.countP (·.active)
    inactiveChannels := channels.countP (fun c => !c.active)
    averageCapacity :=
      if channels.length = 0 then 0
      else (totalCapacity : ℚ) / (channels.length : ℚ)
    healthyChannels := channels.countP (isHealthy crit)
    unhealthyChannels := channels.countP (fun c => !(isHealthy crit c)) }

/-! ### Alias enrichment (spec section 4.2a)

The Data Source's node-info operation is abstracted as a lookup function
`String → Except String String` from a counterparty public key to either the
resolved alias or a (sanitized) error message. -/

/-- The placeholder alias a channel receives when its alias lookup failed,
exactly as the tests check it: `'Unknown (Error retrieving)'`. -/
def aliasErrorPlaceholder : String := "Unknown (Error retrieving)"

/-- Modelled from the spec (the handler is not in the source tree): alias
resolution for one channel, spec section 4.2a.  On lookup success the channel
receives the returned alias string; on failure it receives the placeholder
alias and an `_error` object of kind `alias_retrieval_failed` carrying the
sanitized underlying error.  The failure is absorbed here: the result is a
plain `Channel`, never an exception. -/
def addNodeAlias (lookup : String → Except String String) (c : Channel) : Channel :=
  match c.remote_pubkey with
  | none => c
  | some pk =>
    match lookup pk with
    | Except.ok a => { c with remote_alias := some a }
    | Except.error e =>
        { c with remote_alias := some aliasErrorPlaceholder,
                 errorInfo := some ⟨"alias_retrieval_failed", e⟩ }

/-- Modelled from the spec (the handler is not in the source tree):
`addNodeAliases` resolves every channel's counterparty alias independently;
each lookup's failure is isolated to its own record (spec section 4.2a). -/
def addNodeAliases (lookup : String → Except String String)
    (cs : List Channel) : List Channel :=
  cs.map (addNodeAlias lookup)

/-- Modelled from the spec (the handler is not in the source tree):
`enrichChannelsWithMetadata` delegates to `addNodeAliases` for a non-empty
list and short-circuits an empty list without any calls (spec section 4.2
stage 2). -/
def enrichChannelsWithMetadata (lookup : String → Except String String) :
    List Channel → List Channel
  | [] => []
  | c :: cs => addNodeAliases lookup (c :: cs)

/-! ### The Data Source and raw-channel acquisition -/

/-- The `channels` field of a channel-listing response as a dynamic value:
it may be absent, `null`, present but not a list, or an actual list. -/
inductive ChannelsField where
  | absent
  | nullv
  | notList
  | list (channels : List Channel)
deriving Repr

/-- The wrapped response of the Data Source's channel-listing operation. -/
structure ChannelsResponse where
  channels : ChannelsField
deriving Repr

/-- The Data Source contract of spec section 6: a channel-listing operation and
a per-pubkey node-info operation, each of which may fail (transport or
connection failure), modelled with `Except`. -/
structure DataSource where
  getChannels : Except String ChannelsResponse
  getNodeInfo : String → Except String String

/-- Modelled from the spec (the handler is not in the source tree):
`fetchRawChannelData`, spec section 4.2 stage 1.  It calls the Data Source's
channel-listing operation, propagates a failure of that call itself, and
normalizes a malformed `channels` field (absent, null, or not a list) to the
empty list instead of failing. -/
def fetchRawChannelData (ds : DataSource) : Except String (List Channel) :=
  match ds.getChannels with
  | Except.error e => Except.error e
  | Except.ok r =>
    match r.channels with
    | ChannelsField.list cs => Except.ok cs
    | _ => Except.ok []

/-! ### The orchestrated pipeline and query handling -/

/-- One call made against the Data Source, recorded so that theorems can speak
about which operations a query performed. -/
inductive DSOp where
  | listChannels
  | nodeInfo (public_key : String)
deriving Repr, DecidableEq

/-- The node-info calls the enrichment fan-out issues: one per channel that
carries a `remote_pubkey` (spec section 4.2a). -/
def enrichmentCalls (cs : List Channel) : List DSOp :=
  cs.filterMap (fun c => (c.remote_pubkey).map DSOp.nodeInfo)

/-- The result of the `getChannelData` pipeline: the enriched channel list and
its summary. -/
structure ChannelData where
  channels : List Channel
  summary : ChannelSummary
deriving Repr, DecidableEq

/-- Modelled from the spec (the handler is not in the source tree): the
`getChannelData` pipeline, spec section 4.2 — fetch, then enrich, then
summarize.  The second component records the Data Source calls the stages
performed. -/
def getChannelData (crit : HealthCriteria) (ds : DataSource) :
    Except String ChannelData × List DSOp :=
  match fetchRawChannelData ds with
  | Except.error e => (Except.error e, [DSOp.listChannels])
  | Except.ok raw =>
    let enriched := enrichChannelsWithMetadata (ds.getNodeInfo) raw
    (Except.ok ⟨enriched, calculateChannelSummary crit enriched⟩,
      DSOp.listChannels :: enrichmentCalls raw)

/-- The intent variants produced by the classifier (`src/types/intent.ts` as
used by the tests). -/
inductive IntentType where
  | channel_list
  | channel_health
  | channel_liquidity
  | unknown
deriving Repr, DecidableEq

/-- A classified intent: variant plus the original query text. -/
structure Intent where
  type : IntentType
  query : String
deriving Repr, DecidableEq

/-- The type tag of a `QueryResult`: an intent type or `error`. -/
inductive QueryResultType where
  | channel_list
  | channel_health
  | channel_liquidity
  | unknown
  | error
deriving Repr, DecidableEq

/-- The error object of an error-typed `QueryResult`. -/
structure QueryError where
  message : String
deriving Repr, DecidableEq

/-- The terminal artifact returned to the caller (spec section 3). -/
structure QueryResult where
  type : QueryResultType
  response : String
  data : Option ChannelData := none
  error : Option QueryError := none
deriving Repr, DecidableEq

/-- Modelled from the spec (the formatter is not in the source tree):
presentation-only rendering of the channel-list response. -/
def formatChannelList (d : ChannelData) : String :=
  "You have " ++ toString d.channels.length ++ " channels with a total capacity of "
    ++ toString d.summary.totalCapacity ++ " sats."

/-- Modelled from the spec (the formatter is not in the source tree):
presentation-only rendering of the channel-health response; it consumes the
already-computed classification counts. -/
def formatChannelHealth (d : ChannelData) : String :=
  "You have " ++ toString d.summary.healthyChannels ++ " healthy and "
    ++ toString d.summary.unhealthyChannels ++ " unhealthy channels."

/-- Modelled from the spec (the formatter is not in the source tree):
presentation-only rendering of the channel-liquidity response. -/
def formatChannelLiquidity (d : ChannelData) : String :=
  "Your local balance is " ++ toString d.summary.totalLocalBalance ++ " of "
    ++ toString d.summary.totalCapacity ++ " sats of total capacity."

/-- The `QueryResult` type tag a successfully handled intent produces. -/
def intentResultType : IntentType → QueryResultType
  | IntentType.channel_list => QueryResultType.channel_list
  | IntentType.channel_health => QueryResultType.channel_health
  | IntentType.channel_liquidity => QueryResultType.channel_liquidity
  | IntentType.unknown => QueryResultType.unknown

/-- Dispatch to the per-intent formatter. -/
def formatForIntent : IntentType → ChannelData → String
  | IntentType.channel_list, d => formatChannelList d
  | IntentType.channel_health, d => formatChannelHealth d
  | IntentType.channel_liquidity, d => formatChannelLiquidity d
  | IntentType.unknown, _ => ""

/-- The fixed acknowledgment for unrecognized intents.  The tests check that
the response contains the phrase "didn't understand". -/
def unknownResponse : String :=
  "Sorry, I didn't understand your question. You can ask about your channels, their health, or their liquidity."

/-- Modelled from the spec (the handler is not in the source tree):
`handleQuery`, spec section 4.4.  Dispatches on the intent type; an `unknown`
intent yields the fixed acknowledgment with no Data Source call; for channel
intents, a pipeline failure is caught here and converted into an error-typed
`QueryResult` carrying the sanitized message (`san` abstracts the
`sanitizeError` utility, also absent from the source tree).  The second
component records the Data Source calls made while handling the query. -/
def handleQuery (san : String → String) (crit : HealthCriteria) (ds : DataSource)
    (intent : Intent) : QueryResult × List DSOp :=
  match intent.type with
  | IntentType.unknown =>
      ({ type := QueryResultType.unknown, response := unknownResponse }, [])
  | t =>
    let r := getChannelData crit ds
    match r.1 with
    | Except.error e =>
        ({ type := QueryResultType.error,
           response := "I encountered an error while processing your query: " ++ san e,
           error := some ⟨san e⟩ }, r.2)
    | Except.ok d =>
        ({ type := intentResultType t, response := formatForIntent t d,
           data := some d }, r.2)

/-! ### The intent classifier (spec section 4.1) -/

/-- The query lower-cased, as the classifier normalizes it, represented as its
character list. -/
def lowerChars (s : String) : List Char := s.toList.map Char.toLower

/-- Whether `kw` occurs as a contiguous substring somewhere in the text. -/
def containsSub (kw : List Char) : List Char → Bool
  | [] => kw.isEmpty
  | c :: cs => List.isPrefixOf kw (c :: cs) || containsSub kw cs

/-- Whether the keyword occurs as a substring of the (already lower-cased)
query. -/
def containsKeyword (lq : List Char) (kw : String) : Bool :=
  containsSub kw.toList lq

/-- Whether any keyword of the rule's set occurs in the query. -/
def matchesAny (lq : List Char) (kws : List String) : Bool :=
  kws.any (fun kw => containsKeyword lq kw)

/-- Modelled from the spec: keywords of the liquidity rule (the exact sets are
a tuning detail, spec section 4.1; the ordering discipline is the contract). -/
def liquidityKeywords : List String := ["liquidity", "balance"]

/-- Modelled from the spec: keywords of the health rule. -/
def healthKeywords : List String := ["health"]

/-- Modelled from the spec: keywords of the generic channel-list rule. -/
def listKeywords : List String := ["channel"]

/-- Modelled from the spec (the intent parser `intentParser.ts` is not in the
source tree): the ordered classification rules, most specific first —
liquidity before health before the generic channel rule — with `none` when no
rule matches (spec section 4.1). -/
def classifyQuery (lq : List Char) : Option IntentType :=
  if matchesAny lq liquidityKeywords then some IntentType.channel_liquidity
  else if matchesAny lq healthKeywords then some IntentType.channel_health
  else if matchesAny lq listKeywords then some IntentType.channel_list
  else none

/-- Modelled from the spec (the intent parser is not in the source tree):
`parseIntent` lower-cases the query, applies the ordered rules
first-match-wins, and falls through to `unknown`; it is total and never
fails (spec section 4.1). -/
def parseIntent (q : String) : Intent :=
  match classifyQuery (lowerChars q) with
  | some t => { type := t, query := q }
  | none => { type := IntentType.unknown, query := q }

/-! ### Configuration and the service factory (src/config/index.ts,
src/lnd/lnd-service-factory.ts) -/

/-- The process environment and filesystem as `getConfig` observes them:
the environment variables it reads and the `existsSync` checks it makes. -/
structure Env where
  LND_TLS_CERT_PATH : Option String := none
  LND_MACAROON_PATH : Option String := none
  LND_HOST : Option String := none
  LND_PORT : Option String := none
  PORT : Option String := none
  fileExists : String → Bool := fun _ => true

/-- The `lnd` section of the `Config` interface (src/config/index.ts lines
11-21): `tlsCertPath`, `macaroonPath`, `host`, `port` — and nothing else.  The
TS interface declares no `useMockLnd` member and `getConfig` never assigns
one; `useMockLnd` here models that runtime property of the object: `none`
means the property is absent and a read of it yields `undefined`. -/
structure LndSection where
  tlsCertPath : String
  macaroonPath : String
  host : String
  port : String
  useMockLnd : Option Bool := none
deriving Repr, DecidableEq

/-- The `server` section of the `Config` interface. -/
structure ServerSection where
  port : Int
deriving Repr, DecidableEq

/-- The `Config` interface of src/config/index.ts. -/
structure Config where
  lnd : LndSection
  server : ServerSection
deriving Repr, DecidableEq

/-- Accumulate the leading decimal digits of a character list, stopping at the
first non-digit, as JS `parseInt` consumes its input. -/
def parseDigitsAux : List Char → Nat → Nat
  | [], acc => acc
  | c :: cs, acc =>
      if c.isDigit then parseDigitsAux cs (acc * 10 + (c.toNat - 48)) else acc

/-- JS `parseInt(s, 10)` on the strings `getConfig` passes it; the NaN case
(input with no leading digits) is modelled as 0 and is irrelevant to every
claim below. -/
def parseIntDecimal (s : String) : Int := Int.ofNat (parseDigitsAux s.toList 0)

/-- `validateEnv` of src/config/index.ts: requires `LND_TLS_CERT_PATH` and
`LND_MACAROON_PATH` to be set and both files to exist, throwing (modelled as
`Except.error`) otherwise. -/
def validateEnv (env : Env) : Except String Unit :=
  let missing :=
    (if (env.LND_TLS_CERT_PATH).isNone then ["LND_TLS_CERT_PATH"] else []) ++
    (if (env.LND_MACAROON_PATH).isNone then ["LND_MACAROON_PATH"] else [])
  if 0 < missing.length then
    Except.error ("Missing required environment variables: " ++
      String.intercalate ", " missing)
  else
    let tlsCertPath := (env.LND_TLS_CERT_PATH).getD ""
    let macaroonPath := (env.LND_MACAROON_PATH).getD ""
    if !env.fileExists tlsCertPath then
      Except.error ("TLS certificate file not found at: " ++ tlsCertPath)
    else if !env.fileExists macaroonPath then
      Except.error ("Macaroon file not found at: " ++ macaroonPath)
    else Except.ok ()

/-- `getConfig` of src/config/index.ts: validates the environment, then builds
the `Config` object.  Faithful to the source, the `lnd` object literal it
constructs carries only `tlsCertPath`, `macaroonPath`, `host` and `port`; no
`useMockLnd` property is ever assigned (the field keeps its
absent/`undefined` default, `none`). -/
def getConfig (env : Env) : Except String Config :=
  match validateEnv env with
  | Except.error e => Except.error e
  | Except.ok _ =>
      Except.ok
        { lnd :=
            { tlsCertPath := (env.LND_TLS_CERT_PATH).getD ""
              macaroonPath := (env.LND_MACAROON_PATH).getD ""
              host := (env.LND_HOST).getD "localhost"
              port := (env.LND_PORT).getD "10009" }
          server := { port := parseIntDecimal ((env.PORT).getD "3000") } }

/-- Which service implementation the factory constructs. -/
inductive LndServiceKind where
  | mock
  | real
deriving Repr, DecidableEq

/-- `LndServiceFactory.createLndService` (src/lnd/lnd-service-factory.ts lines
17-25): returns the mock service when `config.lnd.useMockLnd` is truthy and
the real one otherwise.  Reading the property on an object that lacks it
yields `undefined`, which is falsy; `Option.getD false` models exactly that
truthiness test. -/
def createLndService (config : Config) : LndServiceKind :=
  if (config.lnd.useMockLnd).getD false then LndServiceKind.mock
  else LndServiceKind.real

/-! ### The mock Data Source (src/lnd/mock-lnd-service.ts) -/

/-- The fixed sample channels `MockLndService.getChannels` resolves with
(src/lnd/mock-lnd-service.ts lines 74-107), field for field. -/
def mockChannels : List Channel :=
  [{ id := some "channel-1", capacity := 10000000, local_balance := 5000000,
     remote_balance := 5000000, channel_point := some "txid:0", active := true,
     remote_pubkey :=
       some "03864ef025fde8fb587d989186ce6a4a186895ee44a926bfc370e2c366597a3f8f" },
   { id := some "channel-2", capacity := 5000000, local_balance := 2500000,
     remote_balance := 2500000, channel_point := some "txid:1", active := true,
     remote_pubkey :=
       some "02a1c6e284a5ddf9cbb4ff50e84abb1d3c0f74d733385cb7f3631d57a35c3bfbec" },
   { id := some "channel-3", capacity := 2000000, local_balance := 1000000,
     remote_balance := 1000000, channel_point := some "txid:2", active := false,
     remote_pubkey :=
       some "03abf6f44c355dec0d5aa155bdbdd6e0c8fefe318eff402de65c6eb2e1be55dc3e" }]

/-- `MockLndService.getChannels`: an async method whose body performs no
fallible operation and always resolves (never rejects) with the same fixed
response object wrapping `mockChannels`. -/
def mockGetChannels : Except String ChannelsResponse :=
  Except.ok { channels := ChannelsField.list mockChannels }

/-- `MockLndService.getNodeInfo` (src/lnd/mock-lnd-service.ts lines 114-135):
the alias it returns for each known sample public key, `'Unknown'`
otherwise. -/
def mockNodeAlias (public_key : String) : String :=
  if public_key = "03864ef025fde8fb587d989186ce6a4a186895ee44a926bfc370e2c366597a3f8f" then
    "ACINQ"
  else if public_key = "02a1c6e284a5ddf9cbb4ff50e84abb1d3c0f74d733385cb7f3631d57a35c3bfbec" then
    "Bitrefill"
  else if public_key = "03abf6f44c355dec0d5aa155bdbdd6e0c8fefe318eff402de65c6eb2e1be55dc3e" then
    "LN+"
  else "Unknown"

/-- `MockLndService.getNodeInfo` never rejects: it always resolves with a node
record whose alias is `mockNodeAlias`. -/
def mockGetNodeInfo (public_key : String) : Except String String :=
  Except.ok (mockNodeAlias public_key)

/-- The mock service as a Data Source for the pipeline. -/
def mockDataSource : DataSource := ⟨mockGetChannels, mockGetNodeInfo⟩

/-! ### Concrete inputs used by the witness theorems -/

/-- Witness channel: active, balanced at ratio 1/2. -/
def wChanMid : Channel :=
  { capacity := 1000000, local_balance := 500000, remote_balance := 500000,
    active := true }

/-- Witness channel: degenerate zero capacity. -/
def wChanZeroCap : Channel :=
  { capacity := 0, local_balance := 0, remote_balance := 0, active := true }

/-- Witness channels carrying public keys, as in the alias tests. -/
def wChanA : Channel :=
  { capacity := 1000000, local_balance := 500000, remote_balance := 500000,
    active := true, remote_pubkey := some "pubkey1" }

/-- Second witness channel carrying a public key. -/
def wChanB : Channel :=
  { capacity := 2000000, local_balance := 1000000, remote_balance := 1000000,
    active := true, remote_pubkey := some "pubkey2" }

/-- A lookup that succeeds for `pubkey1` and fails for everything else. -/
def wLookup : String → Except String String :=
  fun pk => if pk = "pubkey1" then Except.ok "Node 1"
            else Except.error "Node lookup failed"

/-- A Data Source whose channel-listing call itself fails. -/
def wDataSourceErr : DataSource := ⟨Except.error "Test error", wLookup⟩

/-- A Data Source whose channel-listing response carries a null channels
field. -/
def wDataSourceNull : DataSource := ⟨Except.ok ⟨ChannelsField.nullv⟩, wLookup⟩

/-- An environment carrying both required variables, over a filesystem where
every path exists. -/
def wEnv : Env :=
  { LND_TLS_CERT_PATH := some "/certs/tls.cert",
    LND_MACAROON_PATH := some "/certs/admin.macaroon" }

/-- The configuration `getConfig` produces from `wEnv`. -/
def wConfig : Config :=
  { lnd := { tlsCertPath := "/certs/tls.cert",
             macaroonPath := "/certs/admin.macaroon",
             host := "localhost", port := "10009" },
    server := { port := 3000 } }

/-! ## Theorems -/

/-- Helper: counting a predicate and its complement partitions a list. -/
theorem countP_not_add {α : Type} (p : α → Bool) (l : List α) :
    l.countP p + l.countP (fun a => !p a) = l.length := by
  induction l with
  | nil => rfl
  | cons a l ih => cases h : p a <;> simp [List.countP_cons, h] <;> omega

/-- C1: alias lookups are isolated per channel.  For every lookup function and
channel list, `addNodeAliases` (and `enrichChannelsWithMetadata`) returns
exactly as many records as it was given; a channel whose lookup fails carries
`remote_alias = 'Unknown (Error retrieving)'` and an `_error` object of type
`alias_retrieval_failed` with the underlying error, a channel whose lookup
succeeds carries the returned alias, and no lookup failure escapes
`addNodeAliases` (its result is a plain list whatever the lookups do). -/
theorem addNodeAliases_isolation (lookup : String → Except String String)
    (cs : List Channel) :
    (addNodeAliases lookup cs).length = cs.length ∧
    (enrichChannelsWithMetadata lookup cs).length = cs.length ∧
    ∀ (i : Nat) (c : Channel), cs[i]? = some c → ∀ pk, c.remote_pubkey = some pk →
      (∀ e, lookup pk = Except.error e →
        (addNodeAliases lookup cs)[i]? =
          some { c with remote_alias := some aliasErrorPlaceholder,
                        errorInfo := some ⟨"alias_retrieval_failed", e⟩ }) ∧
      (∀ a, lookup pk = Except.ok a →
        (addNodeAliases lookup cs)[i]? = some { c with remote_alias := some a }) := by
  refine ⟨by simp [addNodeAliases], ?_, ?_⟩
  · cases cs with
    | nil => rfl
    | cons c cs => simp [enrichChannelsWithMetadata, addNodeAliases]
  · intro i c hc pk hpk
    constructor
    · intro e he
      simp [addNodeAliases, List.getElem?_map, hc, addNodeAlias, hpk, he]
    · intro a ha
      simp [addNodeAliases, List.getElem?_map, hc, addNodeAlias, hpk, ha]

/-- C1 witness: with a lookup failing on `pubkey2` and succeeding on
`pubkey1`, both records survive, the first carries the resolved alias and the
second the placeholder plus the `alias_retrieval_failed` error object. -/
theorem addNodeAliases_isolation_witness :
    (addNodeAliases wLookup [wChanA, wChanB])[0]? =
      some { wChanA with remote_alias := some "Node 1" } ∧
    (addNodeAliases wLookup [wChanA, wChanB])[1]? =
      some { wChanB with remote_alias := some aliasErrorPlaceholder,
                         errorInfo :=
                           some ⟨"alias_retrieval_failed", "Node lookup failed"⟩ } ∧
    (addNodeAliases wLookup [wChanA, wChanB]).length = 2 :=
  ⟨((addNodeAliases_isolation wLookup [wChanA, wChanB]).2.2 0 wChanA rfl
      "pubkey1" rfl).2 "Node 1" rfl,
   ((addNodeAliases_isolation wLookup [wChanA, wChanB]).2.2 1 wChanB rfl
      "pubkey2" rfl).1 "Node lookup failed" rfl,
   (addNodeAliases_isolation wLookup [wChanA, wChanB]).1⟩

/-- C2: for every channel and health criteria with
`minLocalRatio ≤ maxLocalRatio`, a channel with positive capacity is scored
healthy iff it is active and its local-balance ratio lies within
`[minLocalRatio, maxLocalRatio]` inclusive; an inactive channel is never
healthy; and in every summary the healthy count is exactly the count of
channels passing the predicate while healthy + unhealthy exhausts the list,
so every non-healthy channel is counted unhealthy. -/
theorem isHealthy_band_characterization (crit : HealthCriteria) (c : Channel)
    (hband : crit.minLocalRatio ≤ crit.maxLocalRatio) (hcap : 0 < c.capacity) :
    (isHealthy crit c = true ↔
      c.active = true ∧ crit.minLocalRatio ≤ localRatio c ∧
        localRatio c ≤ crit.maxLocalRatio) ∧
    (c.active = false → isHealthy crit c = false) ∧
    ∀ cs, (calculateChannelSummary crit cs).healthyChannels =
        cs.countP (isHealthy crit) ∧
      (calculateChannelSummary crit cs).healthyChannels +
        (calculateChannelSummary crit cs).unhealthyChannels = cs.length := by
  have hne : ¬(c.capacity = 0) := by omega
  refine ⟨?_, ?_, ?_⟩
  · simp [isHealthy, hne, Bool.and_eq_true, decide_eq_true_eq, and_assoc]
  · intro h; simp [isHealthy, h]
  · intro cs
    exact ⟨rfl, countP_not_add (isHealthy crit) cs⟩

/-- C2 witness: with the tests' custom criteria 0.3-0.7, the active channel at
ratio 0.5 is healthy. -/
theorem isHealthy_band_characterization_witness :
    isHealthy ⟨3/10, 7/10⟩ wChanMid = true :=
  ((isHealthy_band_characterization ⟨3/10, 7/10⟩ wChanMid (by norm_num)
      (by decide)).1).mpr
    ⟨rfl, by norm_num [localRatio, wChanMid], by norm_num [localRatio, wChanMid]⟩

/-- C3: for every sanitizer, criteria, Data Source, channel-related intent and
pipeline failure, `handleQuery` converts the failure into an error-typed
`QueryResult` whose `error.message` is the sanitized failure reason and whose
response embeds it after the user-facing prefix; the caller receives a
well-formed `QueryResult` (the function is total by construction) and no
exception escapes. -/
theorem handleQuery_error_boundary (san : String → String)
    (crit : HealthCriteria) (ds : DataSource) (intent : Intent) (e : String)
    (hintent : intent.type ≠ IntentType.unknown)
    (herr : (getChannelData crit ds).1 = Except.error e) :
    (handleQuery san crit ds intent).1.type = QueryResultType.error ∧
    (handleQuery san crit ds intent).1.error = some ⟨san e⟩ ∧
    (handleQuery san crit ds intent).1.response =
      "I encountered an error while processing your query: " ++ san e ∧
    (handleQuery san crit ds intent).1.data = none := by
  obtain ⟨t, q⟩ := intent
  cases t with
  | unknown => exact absurd rfl hintent
  | channel_list => refine ⟨?_, ?_, ?_, ?_⟩ <;> simp [handleQuery, herr]
  | channel_health => refine ⟨?_, ?_, ?_, ?_⟩ <;> simp [handleQuery, herr]
  | channel_liquidity => refine ⟨?_, ?_, ?_, ?_⟩ <;> simp [handleQuery, herr]

/-- C3 witness: a Data Source whose channel listing rejects with "Test error"
yields, under the identity sanitizer, an error-typed result carrying exactly
that message. -/
theorem handleQuery_error_boundary_witness :
    (handleQuery (fun s => s) defaultCriteria wDataSourceErr
        ⟨IntentType.channel_list, "list my channels"⟩).1.type =
      QueryResultType.error ∧
    (handleQuery (fun s => s) defaultCriteria wDataSourceErr
        ⟨IntentType.channel_list, "list my channels"⟩).1.error =
      some ⟨"Test error"⟩ ∧
    (handleQuery (fun s => s) defaultCriteria wDataSourceErr
        ⟨IntentType.channel_list, "list my channels"⟩).1.response =
      "I encountered an error while processing your query: " ++ "Test error" ∧
    (handleQuery (fun s => s) defaultCriteria wDataSourceErr
        ⟨IntentType.channel_list, "list my channels"⟩).1.data = none :=
  handleQuery_error_boundary (fun s => s) defaultCriteria wDataSourceErr
    ⟨IntentType.channel_list, "list my channels"⟩ "Test error" (by decide) rfl

/-- C4: for every Data Source, `fetchRawChannelData` returns the empty list
without raising when the response's channels field is absent, null, or not a
list; returns the list itself when one is present; and fails exactly when the
channel-listing call itself fails, propagating that error. -/
theorem fetchRawChannelData_defensive (ds : DataSource) :
    (∀ r, ds.getChannels = Except.ok r →
      (r.channels = ChannelsField.absent ∨ r.channels = ChannelsField.nullv ∨
       r.channels = ChannelsField.notList) →
      fetchRawChannelData ds = Except.ok []) ∧
    (∀ r cs, ds.getChannels = Except.ok r → r.channels = ChannelsField.list cs →
      fetchRawChannelData ds = Except.ok cs) ∧
    (∀ e, ds.getChannels = Except.error e →
      fetchRawChannelData ds = Except.error e) := by
  refine ⟨?_, ?_, ?_⟩
  · rintro r hok (h | h | h) <;> simp [fetchRawChannelData, hok, h]
  · rintro r cs hok h
    simp [fetchRawChannelData, hok, h]
  · intro e he
    simp [fetchRawChannelData, he]

/-- C5: a channel with zero capacity is scored unhealthy (no division is
performed: the embedding's scorer short-circuits on `capacity = 0`), and a
summary over such a channel counts it unhealthy, not healthy. -/
theorem zeroCapacity_unhealthy (crit : HealthCriteria) (c : Channel)
    (hcap : c.capacity = 0) :
    isHealthy crit c = false ∧
    (calculateChannelSummary crit [c]).unhealthyChannels = 1 ∧
    (calculateChannelSummary crit [c]).healthyChannels = 0 := by
  have h : isHealthy crit c = false := by simp [isHealthy, hcap]
  refine ⟨h, ?_, ?_⟩ <;>
    simp [calculateChannelSummary, List.countP_cons, List.countP_nil, h]

/-- C5 witness: the degenerate zero-capacity channel is unhealthy under the
default criteria. -/
theorem zeroCapacity_unhealthy_witness :
    isHealthy defaultCriteria wChanZeroCap = false ∧
    (calculateChannelSummary defaultCriteria [wChanZeroCap]).unhealthyChannels = 1 ∧
    (calculateChannelSummary defaultCriteria [wChanZeroCap]).healthyChannels = 0 :=
  zeroCapacity_unhealthy defaultCriteria wChanZeroCap rfl

/-- C6: contrary to the claim, the configuration produced by `getConfig`
carries no `useMockLnd` flag (the `Config` interface does not declare one and
`getConfig` never assigns one), so `createLndService` reads an absent
property, the truthiness test fails, and the factory returns the real service
for every configuration `getConfig` can produce — the mock can never be
selected through `getConfig`. -/
theorem createLndService_getConfig_always_real (env : Env) (cfg : Config)
    (h : getConfig env = Except.ok cfg) :
    cfg.lnd.useMockLnd = none ∧ createLndService cfg = LndServiceKind.real := by
  unfold getConfig at h
  cases hv : validateEnv env with
  | error e => rw [hv] at h; cases h
  | ok u =>
      rw [hv] at h
      injection h with h2
      subst h2
      exact ⟨rfl, rfl⟩

/-- C6 witness: a fully populated environment (both credential variables set,
every file present) still produces a configuration without the flag, from
which the factory constructs the real service. -/
theorem createLndService_getConfig_always_real_witness :
    wConfig.lnd.useMockLnd = none ∧ createLndService wConfig = LndServiceKind.real :=
  createLndService_getConfig_always_real wEnv wConfig rfl

/-- C7: for every sanitizer, criteria, Data Source and query text, an
`unknown` intent yields the fixed acknowledgment result — whose response
contains the phrase "didn't understand" — and the list of Data Source calls
made while handling it is empty: neither channel listing nor node-info lookup
is performed. -/
theorem handleQuery_unknown_no_datasource (san : String → String)
    (crit : HealthCriteria) (ds : DataSource) (q : String) :
    handleQuery san crit ds ⟨IntentType.unknown, q⟩ =
      ({ type := QueryResultType.unknown, response := unknownResponse,
         data := none, error := none }, []) ∧
    ∃ p s, unknownResponse = p ++ "didn't understand" ++ s :=
  ⟨rfl, "Sorry, I ",
    " your question. You can ask about your channels, their health, or their liquidity.",
    rfl⟩

/-- C8: the summary of the empty channel list has every numeric field equal to
zero, with the average capacity defined as 0 (no division attempted). -/
theorem calculateChannelSummary_empty (crit : HealthCriteria) :
    calculateChannelSummary crit [] =
      { totalCapacity := 0, totalLocalBalance := 0, totalRemoteBalance := 0,
        activeChannels := 0, inactiveChannels := 0, averageCapacity := 0,
        healthyChannels := 0, unhealthyChannels := 0 } := rfl

/-- C9: the intent classifier is total — for every input string it returns an
intent carrying the original query text, and whenever no classification rule
matches the lower-cased query the result is the `unknown` intent with the
original query. -/
theorem parseIntent_total (q : String) :
    (parseIntent q).query = q ∧
    (classifyQuery (lowerChars q) = none →
      parseIntent q = { type := IntentType.unknown, query := q }) := by
  unfold parseIntent
  cases h : classifyQuery (lowerChars q) <;> simp

/-- C10: the mock service's channel listing always resolves (it is a constant,
never an error) with the same fixed response: exactly 3 channels, of which 2
are active and 1 inactive, and every channel has positive capacity with
`local_balance + remote_balance = capacity`. -/
theorem mockGetChannels_fixed :
    mockGetChannels = Except.ok { channels := ChannelsField.list mockChannels } ∧
    mockChannels.length = 3 ∧
    mockChannels.countP (·.active) = 2 ∧
    mockChannels.countP (fun c => !c.active) = 1 ∧
    mockChannels.all
      (fun c => decide (0 < c.capacity) &&
        decide (c.local_balance + c.remote_balance = c.capacity)) = true := by
  refine ⟨rfl, rfl, ?_, ?_, ?_⟩ <;> decide

end LndMcp
